import Mathlib

/-
Verification of the React Native JNI bridge layer
(src/ReactAndroid/src/main/jni/react/jni/OnLoad.cpp).

The development shallowly embeds the value model (folly::dynamic), the
consumable containers (NativeArray / NativeMap with their isConsumed flag),
the readable and writable container operations, the map key iterator, and
the batch-dispatch path (bridge::dispatchCallbacksToJava and friends).
Stateful C++ methods become functions that return an Except result paired
with the updated object state; the throw-before-mutate order of the source
is preserved so that no-mutation-on-error is provable rather than assumed.
-/

namespace ReactBridge

/-- folly::dynamic: the recursive JSON-like value the bridge exchanges.
The C++ DOUBLE variant is modelled as an exact rational (no claim performs
floating-point arithmetic; the only conversion used, int64 to double, is
exact on the magnitudes the claims exercise), INT64 as Int, and the OBJECT
variant (an unordered string-keyed map in C++) as an association list whose
list order stands for the container's unspecified iteration order. -/
inductive Dynamic : Type where
  | null : Dynamic
  | bool (b : Bool) : Dynamic
  | int (i : Int) : Dynamic
  | dbl (d : ℚ) : Dynamic
  | str (s : String) : Dynamic
  | arr (elems : List Dynamic) : Dynamic
  | obj (items : List (String × Dynamic)) : Dynamic

/-- Error domain of the embedded operations: the Java exception classes the
source throws via throwNewJavaException, plus the raw C++ exceptions coming
out of folly (folly::TypeError, std::out_of_range) for the paths where no
handler translates them. -/
inductive Err : Type where
  | objectAlreadyConsumed (msg : String) : Err
  | unexpectedNativeType (msg : String) : Err
  | noSuchKey (msg : String) : Err
  | invalidIterator (msg : String) : Err
  | follyTypeError (msg : String) : Err
  | follyOutOfRange (msg : String) : Err
  deriving DecidableEq, Repr

/-- folly::dynamic::isNull. -/
def Dynamic.isNull : Dynamic → Bool
  | .null => true
  | _ => false

/-- folly::dynamic::isInt. -/
def Dynamic.isInt : Dynamic → Bool
  | .int _ => true
  | _ => false

/-- Lookup in the association list backing an OBJECT dynamic. -/
def objFind : List (String × Dynamic) → String → Option Dynamic
  | [], _ => none
  | (k', v) :: rest, k => if k' = k then some v else objFind rest k

/-- Removal of a key from the association list backing an OBJECT dynamic. -/
def objErase : List (String × Dynamic) → String → List (String × Dynamic)
  | [], _ => []
  | (k', v) :: rest, k =>
    if k' = k then objErase rest k else (k', v) :: objErase rest k

/-- Keyed insertion into the association list backing an OBJECT dynamic:
when the key is present the stored value is replaced in place, otherwise
the pair is appended (folly::dynamic::insert assigns through to an existing
entry). -/
def objInsert : List (String × Dynamic) → String → Dynamic → List (String × Dynamic)
  | [], k, v => [(k, v)]
  | (k', v') :: rest, k, v =>
    if k' = k then (k, v) :: rest else (k', v') :: objInsert rest k v

namespace folly

/-- folly::dynamic::push_back: appends to an ARRAY, otherwise a C++
TypeError (the type check happens before the argument is moved from). -/
def pushBack : Dynamic → Dynamic → Except Err Dynamic
  | .arr xs, v => .ok (.arr (xs ++ [v]))
  | _, _ => .error (.follyTypeError ("push_back: not an array"))

/-- folly::dynamic::at(index): element access on an ARRAY; std::out_of_range
past the end, TypeError on a non-array. -/
def atIndex : Dynamic → Nat → Except Err Dynamic
  | .arr xs, i =>
    match xs[i]? with
    | some v => .ok v
    | none => .error (.follyOutOfRange ("index out of range"))
  | _, _ => .error (.follyTypeError ("at: not an array"))

/-- folly::dynamic::at(key): keyed access on an OBJECT; std::out_of_range
when the key is missing, TypeError on a non-object. -/
def atKey : Dynamic → String → Except Err Dynamic
  | .obj kvs, k =>
    match objFind kvs k with
    | some v => .ok v
    | none => .error (.follyOutOfRange ("key not found"))
  | _, _ => .error (.follyTypeError ("at: not an object"))

/-- folly::dynamic::find compared against items().end(): key presence on an
OBJECT, TypeError on a non-object. -/
def findKey : Dynamic → String → Except Err Bool
  | .obj kvs, k => .ok (objFind kvs k).isSome
  | _, _ => .error (.follyTypeError ("find: not an object"))

/-- folly::dynamic::insert on an OBJECT; TypeError on a non-object (thrown
before the value argument is moved from). -/
def insertKV : Dynamic → String → Dynamic → Except Err Dynamic
  | .obj kvs, k, v => .ok (.obj (objInsert kvs k v))
  | _, _, _ => .error (.follyTypeError ("insert: not an object"))

/-- folly::dynamic::erase(key) on an OBJECT; TypeError on a non-object. -/
def eraseKey : Dynamic → String → Except Err Dynamic
  | .obj kvs, k => .ok (.obj (objErase kvs k))
  | _, _ => .error (.follyTypeError ("erase: not an object"))

/-- folly::dynamic::items(): the entry sequence of an OBJECT; TypeError on a
non-object. -/
def items : Dynamic → Except Err (List (String × Dynamic))
  | .obj kvs => .ok kvs
  | _ => .error (.follyTypeError ("items: not an object"))

/-- folly::dynamic::size(): defined for ARRAY, OBJECT and STRING only. -/
def size : Dynamic → Except Err Nat
  | .arr xs => .ok xs.length
  | .obj kvs => .ok kvs.length
  | .str s => .ok s.length
  | _ => .error (.follyTypeError ("size: type has no size"))

/-- folly::dynamic::getBool: demands the BOOL variant. -/
def getBool : Dynamic → Except Err Bool
  | .bool b => .ok b
  | _ => .error (.follyTypeError ("getBool: type mismatch"))

/-- folly::dynamic::getDouble: demands the DOUBLE variant (an INT64 is not
accepted, which is why the callers test isInt first). -/
def getDouble : Dynamic → Except Err ℚ
  | .dbl d => .ok d
  | _ => .error (.follyTypeError ("getDouble: type mismatch"))

/-- folly::dynamic::getString: demands the STRING variant. -/
def getString : Dynamic → Except Err String
  | .str s => .ok s
  | _ => .error (.follyTypeError ("getString: type mismatch"))

end folly

/-- The com.facebook.react.bridge.ReadableType enum. -/
inductive ReadableType : Type where
  | Null : ReadableType
  | Boolean : ReadableType
  | Number : ReadableType
  | String : ReadableType
  | Map : ReadableType
  | Array : ReadableType
  deriving DecidableEq, Repr

/-- type::getType (OnLoad.cpp 107-125): projects a dynamic's type tag onto
the six externally visible ReadableType values; DOUBLE and INT64 both map
to Number. -/
def typeGetType : Dynamic → ReadableType
  | .null => .Null
  | .bool _ => .Boolean
  | .dbl _ => .Number
  | .int _ => .Number
  | .str _ => .String
  | .obj _ => .Map
  | .arr _ => .Array

/-- NativeArray (declared in NativeArray.h; its two data members are used
throughout OnLoad.cpp): a folly::dynamic array value plus the isConsumed
flag. The value field keeps the full Dynamic type so that the moved-from
state is representable: moving from a folly::dynamic leaves the source
null. -/
structure NativeArray : Type where
  isConsumed : Bool
  array : Dynamic

/-- NativeMap (OnLoad.cpp 42-46): a folly::dynamic object value plus the
isConsumed flag; same moved-from convention as NativeArray. -/
structure NativeMap : Type where
  isConsumed : Bool
  map : Dynamic

/-- exceptions::throwIfObjectAlreadyConsumed (OnLoad.cpp 33-38). -/
def throwIfObjectAlreadyConsumed (isConsumed : Bool) (msg : String) : Except Err Unit :=
  if isConsumed then .error (.objectAlreadyConsumed msg) else .ok ()

/-- The folly::TypeError to UnexpectedNativeTypeException translation.
Used both by ReadableNativeArray::mapException (OnLoad.cpp 130-134), which
fbjni applies to every registered method of the array classes, and by the
per-method catch (folly::TypeError) blocks of the readable map methods. -/
def translateTypeError {α : Type} : Except Err α → Except Err α
  | .error (.follyTypeError msg) => .error (.unexpectedNativeType msg)
  | r => r

/-- createReadableNativeMapWithContents (OnLoad.cpp 62-79): a null value
yields no object (a Java null), a non-object value raises
UnexpectedNativeType, otherwise a fresh unconsumed map wraps the value. -/
def createReadableNativeMapWithContents : Dynamic → Except Err (Option NativeMap)
  | .null => .ok none
  | .obj kvs => .ok (some { isConsumed := false, map := .obj kvs })
  | _ => .error (.unexpectedNativeType ("expected Map"))

/-- Modelled from the spec: createReadableNativeArrayWithContents is
declared in NativeArray.h, which is not among the sources. Behaviour is
taken from spec section 4.1 (a null value projects to an explicit absence,
a kind mismatch is a TypeMismatch error) and mirrors the in-source map
analogue createReadableNativeMapWithContents: null yields no object, a
non-array raises UnexpectedNativeType, otherwise a fresh unconsumed array
wraps the value. -/
def createReadableNativeArrayWithContents : Dynamic → Except Err (Option NativeArray)
  | .null => .ok none
  | .arr xs => .ok (some { isConsumed := false, array := .arr xs })
  | _ => .error (.unexpectedNativeType ("expected Array"))

/-- ReadableNativeArray::getSize (OnLoad.cpp 136-138). -/
def ReadableNativeArray.getSize (a : NativeArray) : Except Err Nat :=
  translateTypeError (folly.size a.array)

/-- ReadableNativeArray::isNull (OnLoad.cpp 140-142). -/
def ReadableNativeArray.isNull (a : NativeArray) (index : Nat) : Except Err Bool :=
  translateTypeError
    (match folly.atIndex a.array index with
     | .ok v => .ok v.isNull
     | .error e => .error e)

/-- ReadableNativeArray::getBoolean (OnLoad.cpp 144-146). -/
def ReadableNativeArray.getBoolean (a : NativeArray) (index : Nat) : Except Err Bool :=
  translateTypeError
    (match folly.atIndex a.array index with
     | .ok v => folly.getBool v
     | .error e => .error e)

/-- ReadableNativeArray::getDouble (OnLoad.cpp 148-154): an integral value
is returned through getInt and widened to double; the widening is modelled
by the exact Int to ℚ cast, which agrees with the C++ int64 to double
conversion for magnitudes up to 2^53. -/
def ReadableNativeArray.getDouble (a : NativeArray) (index : Nat) : Except Err ℚ :=
  translateTypeError
    (match folly.atIndex a.array index with
     | .ok (.int i) => .ok (i : ℚ)
     | .ok v => folly.getDouble v
     | .error e => .error e)

/-- ReadableNativeArray::getString (OnLoad.cpp 156-162): a null element
reads back as a Java null string. -/
def ReadableNativeArray.getString (a : NativeArray) (index : Nat) : Except Err (Option String) :=
  translateTypeError
    (match folly.atIndex a.array index with
     | .ok .null => .ok none
     | .ok v =>
       match folly.getString v with
       | .ok s => .ok (some s)
       | .error e => .error e
     | .error e => .error e)

/-- ReadableNativeArray::getArray (OnLoad.cpp 164-166). -/
def ReadableNativeArray.getArray (a : NativeArray) (index : Nat) : Except Err (Option NativeArray) :=
  translateTypeError
    (match folly.atIndex a.array index with
     | .ok v => createReadableNativeArrayWithContents v
     | .error e => .error e)

/-- ReadableNativeArray::getMap (OnLoad.cpp 168-170). -/
def ReadableNativeArray.getMap (a : NativeArray) (index : Nat) : Except Err (Option NativeMap) :=
  translateTypeError
    (match folly.atIndex a.array index with
     | .ok v => createReadableNativeMapWithContents v
     | .error e => .error e)

/-- ReadableNativeArray::getType (OnLoad.cpp 172-174). -/
def ReadableNativeArray.getType (a : NativeArray) (index : Nat) : Except Err ReadableType :=
  translateTypeError
    (match folly.atIndex a.array index with
     | .ok v => .ok (typeGetType v)
     | .error e => .error e)

/-- WritableNativeArray::pushNull (OnLoad.cpp 194-197): the consumed check
precedes the mutation, so an error leaves the receiver unchanged. -/
def WritableNativeArray.pushNull (a : NativeArray) : Except Err Unit × NativeArray :=
  match throwIfObjectAlreadyConsumed a.isConsumed ("Array already consumed") with
  | .error e => (.error e, a)
  | .ok _ =>
    match folly.pushBack a.array .null with
    | .error e => (translateTypeError (.error e), a)
    | .ok d => (.ok (), { a with array := d })

/-- WritableNativeArray::pushBoolean (OnLoad.cpp 199-202). -/
def WritableNativeArray.pushBoolean (a : NativeArray) (value : Bool) :
    Except Err Unit × NativeArray :=
  match throwIfObjectAlreadyConsumed a.isConsumed ("Array already consumed") with
  | .error e => (.error e, a)
  | .ok _ =>
    match folly.pushBack a.array (.bool value) with
    | .error e => (translateTypeError (.error e), a)
    | .ok d => (.ok (), { a with array := d })

/-- WritableNativeArray::pushDouble (OnLoad.cpp 204-207). -/
def WritableNativeArray.pushDouble (a : NativeArray) (value : ℚ) :
    Except Err Unit × NativeArray :=
  match throwIfObjectAlreadyConsumed a.isConsumed ("Receiving array already consumed") with
  | .error e => (.error e, a)
  | .ok _ =>
    match folly.pushBack a.array (.dbl value) with
    | .error e => (translateTypeError (.error e), a)
    | .ok d => (.ok (), { a with array := d })

/-- WritableNativeArray::pushString (OnLoad.cpp 209-216): a null Java
reference falls through to pushNull. -/
def WritableNativeArray.pushString (a : NativeArray) (value : Option String) :
    Except Err Unit × NativeArray :=
  match value with
  | none => WritableNativeArray.pushNull a
  | some s =>
    match throwIfObjectAlreadyConsumed a.isConsumed ("Receiving array already consumed") with
    | .error e => (.error e, a)
    | .ok _ =>
      match folly.pushBack a.array (.str s) with
      | .error e => (translateTypeError (.error e), a)
      | .ok d => (.ok (), { a with array := d })

/-- WritableNativeArray::pushArray (OnLoad.cpp 218-227): null falls through
to pushNull; otherwise the receiver is checked before the source, the
source's value is moved into the receiver (leaving the source null) and the
source is marked consumed. The result carries the updated receiver and the
updated source reference. -/
def WritableNativeArray.pushArray (a : NativeArray) (other : Option NativeArray) :
    Except Err Unit × NativeArray × Option NativeArray :=
  match other with
  | none =>
    match WritableNativeArray.pushNull a with
    | (r, a') => (r, a', none)
  | some o =>
    match throwIfObjectAlreadyConsumed a.isConsumed ("Receiving array already consumed") with
    | .error e => (.error e, a, some o)
    | .ok _ =>
      match throwIfObjectAlreadyConsumed o.isConsumed ("Array to push already consumed") with
      | .error e => (.error e, a, some o)
      | .ok _ =>
        match folly.pushBack a.array o.array with
        | .error e => (translateTypeError (.error e), a, some o)
        | .ok d =>
          (.ok (), { a with array := d }, some { o with array := .null, isConsumed := true })

/-- WritableNativeArray::pushMap (OnLoad.cpp 229-239): same ownership
transfer as pushArray, with a NativeMap source. -/
def WritableNativeArray.pushMap (a : NativeArray) (other : Option NativeMap) :
    Except Err Unit × NativeArray × Option NativeMap :=
  match other with
  | none =>
    match WritableNativeArray.pushNull a with
    | (r, a') => (r, a', none)
  | some o =>
    match throwIfObjectAlreadyConsumed a.isConsumed ("Receiving array already consumed") with
    | .error e => (.error e, a, some o)
    | .ok _ =>
      match throwIfObjectAlreadyConsumed o.isConsumed ("Map to push already consumed") with
      | .error e => (.error e, a, some o)
      | .ok _ =>
        match folly.pushBack a.array o.map with
        | .error e => (translateTypeError (.error e), a, some o)
        | .ok d =>
          (.ok (), { a with array := d }, some { o with map := .null, isConsumed := true })

mutual

/-- Serialization used by NativeMap::toString; stands in for folly::toJson.
The exact formatting (escaping, number rendering) is not relied on by any
claim; only the structure of the traversal matters. -/
def Dynamic.toJson : Dynamic → String
  | .null => "null"
  | .bool b => if b then "true" else "false"
  | .int i => ToString.toString i
  | .dbl d => ToString.toString d
  | .str s => "\"" ++ s ++ "\""
  | .arr xs => "[" ++ Dynamic.toJsonList xs ++ "]"
  | .obj kvs => "\x7b" ++ Dynamic.toJsonItems kvs ++ "\x7d"

def Dynamic.toJsonList : List Dynamic → String
  | [] => ""
  | [x] => Dynamic.toJson x
  | x :: y :: rest => Dynamic.toJson x ++ "," ++ Dynamic.toJsonList (y :: rest)

def Dynamic.toJsonItems : List (String × Dynamic) → String
  | [] => ""
  | [(k, v)] => "\"" ++ k ++ "\":" ++ Dynamic.toJson v
  | (k, v) :: p :: rest =>
    "\"" ++ k ++ "\":" ++ Dynamic.toJson v ++ "," ++ Dynamic.toJsonItems (p :: rest)

end

/-- map::toString (OnLoad.cpp 262-268): the one readable map operation that
does check the consumed flag. -/
def map.toString (m : NativeMap) : Except Err String :=
  match throwIfObjectAlreadyConsumed m.isConsumed ("Map already consumed") with
  | .error e => .error e
  | .ok _ => .ok ("\x7b NativeMap: " ++ Dynamic.toJson m.map ++ " \x7d")

/-- map::writable::putNull (OnLoad.cpp 272-276). -/
def map.writable.putNull (m : NativeMap) (key : String) : Except Err Unit × NativeMap :=
  match throwIfObjectAlreadyConsumed m.isConsumed ("Receiving map already consumed") with
  | .error e => (.error e, m)
  | .ok _ =>
    match folly.insertKV m.map key .null with
    | .error e => (.error e, m)
    | .ok d => (.ok (), { m with map := d })

/-- map::writable::putBoolean (OnLoad.cpp 278-282). -/
def map.writable.putBoolean (m : NativeMap) (key : String) (value : Bool) :
    Except Err Unit × NativeMap :=
  match throwIfObjectAlreadyConsumed m.isConsumed ("Receiving map already consumed") with
  | .error e => (.error e, m)
  | .ok _ =>
    match folly.insertKV m.map key (.bool value) with
    | .error e => (.error e, m)
    | .ok d => (.ok (), { m with map := d })

/-- map::writable::putDouble (OnLoad.cpp 284-288). -/
def map.writable.putDouble (m : NativeMap) (key : String) (value : ℚ) :
    Except Err Unit × NativeMap :=
  match throwIfObjectAlreadyConsumed m.isConsumed ("Receiving map already consumed") with
  | .error e => (.error e, m)
  | .ok _ =>
    match folly.insertKV m.map key (.dbl value) with
    | .error e => (.error e, m)
    | .ok d => (.ok (), { m with map := d })

/-- map::writable::putString (OnLoad.cpp 290-298): a null Java reference
falls through to putNull. -/
def map.writable.putString (m : NativeMap) (key : String) (value : Option String) :
    Except Err Unit × NativeMap :=
  match value with
  | none => map.writable.putNull m key
  | some s =>
    match throwIfObjectAlreadyConsumed m.isConsumed ("Receiving map already consumed") with
    | .error e => (.error e, m)
    | .ok _ =>
      match folly.insertKV m.map key (.str s) with
      | .error e => (.error e, m)
      | .ok d => (.ok (), { m with map := d })

/-- map::writable::putArray (OnLoad.cpp 300-311): null falls through to
putNull; otherwise receiving map checked first, then the source array; on
success the source's value is moved under the key and the source is marked
consumed. -/
def map.writable.putArray (m : NativeMap) (key : String) (value : Option NativeArray) :
    Except Err Unit × NativeMap × Option NativeArray :=
  match value with
  | none =>
    match map.writable.putNull m key with
    | (r, m') => (r, m', none)
  | some o =>
    match throwIfObjectAlreadyConsumed m.isConsumed ("Receiving map already consumed") with
    | .error e => (.error e, m, some o)
    | .ok _ =>
      match throwIfObjectAlreadyConsumed o.isConsumed ("Array to put already consumed") with
      | .error e => (.error e, m, some o)
      | .ok _ =>
        match folly.insertKV m.map key o.array with
        | .error e => (.error e, m, some o)
        | .ok d =>
          (.ok (), { m with map := d }, some { o with array := .null, isConsumed := true })

/-- map::writable::putMap (OnLoad.cpp 313-324). -/
def map.writable.putMap (m : NativeMap) (key : String) (value : Option NativeMap) :
    Except Err Unit × NativeMap × Option NativeMap :=
  match value with
  | none =>
    match map.writable.putNull m key with
    | (r, m') => (r, m', none)
  | some o =>
    match throwIfObjectAlreadyConsumed m.isConsumed ("Receiving map already consumed") with
    | .error e => (.error e, m, some o)
    | .ok _ =>
      match throwIfObjectAlreadyConsumed o.isConsumed ("Map to put already consumed") with
      | .error e => (.error e, m, some o)
      | .ok _ =>
        match folly.insertKV m.map key o.map with
        | .error e => (.error e, m, some o)
        | .ok d =>
          (.ok (), { m with map := d }, some { o with map := .null, isConsumed := true })

/-- The merge loop of map::writable::mergeMap (OnLoad.cpp 334-337): for each
source entry, erase the key from the destination, then insert the entry
(the iteration copies each pair, so the source map itself is not changed). -/
def map.writable.mergeLoop (d : Dynamic) : List (String × Dynamic) → Except Err Dynamic
  | [] => .ok d
  | (k, v) :: rest =>
    match folly.eraseKey d k with
    | .error e => .error e
    | .ok d1 =>
      match folly.insertKV d1 k v with
      | .error e => .error e
      | .ok d2 => map.writable.mergeLoop d2 rest

/-- map::writable::mergeMap (OnLoad.cpp 326-338): source consumed check
first, then destination; neither consumed flag is modified. The result
carries the updated destination and the (unchanged) source. -/
def map.writable.mergeMap (dest source : NativeMap) :
    Except Err Unit × NativeMap × NativeMap :=
  match throwIfObjectAlreadyConsumed source.isConsumed ("Source map already consumed") with
  | .error e => (.error e, dest, source)
  | .ok _ =>
    match throwIfObjectAlreadyConsumed dest.isConsumed ("Destination map already consumed") with
    | .error e => (.error e, dest, source)
    | .ok _ =>
      match folly.items source.map with
      | .error e => (.error e, dest, source)
      | .ok kvs =>
        match map.writable.mergeLoop dest.map kvs with
        | .error e => (.error e, dest, source)
        | .ok d => (.ok (), { dest with map := d }, source)

/-- map::readable::hasKey (OnLoad.cpp 346-351): no consumed check. -/
def map.readable.hasKey (m : NativeMap) (keyName : String) : Except Err Bool :=
  folly.findKey m.map keyName

/-- map::readable::getMapValue (OnLoad.cpp 353-361): keyed access that
translates only std::out_of_range into NoSuchKeyException; no consumed
check. -/
def map.readable.getMapValue (m : NativeMap) (keyName : String) : Except Err Dynamic :=
  match folly.atKey m.map keyName with
  | .error (.follyOutOfRange msg) => .error (.noSuchKey msg)
  | r => r

/-- map::readable::isNull (OnLoad.cpp 363-365). -/
def map.readable.isNull (m : NativeMap) (keyName : String) : Except Err Bool :=
  match map.readable.getMapValue m keyName with
  | .ok v => .ok v.isNull
  | .error e => .error e

/-- map::readable::getBooleanKey (OnLoad.cpp 367-373): the try block wraps
the whole lookup, so any folly TypeError becomes UnexpectedNativeType. -/
def map.readable.getBooleanKey (m : NativeMap) (keyName : String) : Except Err Bool :=
  translateTypeError
    (match map.readable.getMapValue m keyName with
     | .ok v => folly.getBool v
     | .error e => .error e)

/-- map::readable::getDoubleKey (OnLoad.cpp 375-385): the lookup itself is
outside the try block; an integral value is widened through getInt, and only
getDouble's TypeError is translated. -/
def map.readable.getDoubleKey (m : NativeMap) (keyName : String) : Except Err ℚ :=
  match map.readable.getMapValue m keyName with
  | .error e => .error e
  | .ok (.int i) => .ok (i : ℚ)
  | .ok v => translateTypeError (folly.getDouble v)

/-- map::readable::getStringKey (OnLoad.cpp 387-398): null reads back as a
Java null string; only getString's TypeError is translated. -/
def map.readable.getStringKey (m : NativeMap) (keyName : String) : Except Err (Option String) :=
  match map.readable.getMapValue m keyName with
  | .error e => .error e
  | .ok .null => .ok none
  | .ok v =>
    translateTypeError
      (match folly.getString v with
       | .ok s => .ok (some s)
       | .error e => .error e)

/-- map::readable::getArrayKey (OnLoad.cpp 400-402). -/
def map.readable.getArrayKey (m : NativeMap) (keyName : String) :
    Except Err (Option NativeArray) :=
  match map.readable.getMapValue m keyName with
  | .error e => .error e
  | .ok v => createReadableNativeArrayWithContents v

/-- map::readable::getMapKey (OnLoad.cpp 404-406). -/
def map.readable.getMapKey (m : NativeMap) (keyName : String) :
    Except Err (Option NativeMap) :=
  match map.readable.getMapValue m keyName with
  | .error e => .error e
  | .ok v => createReadableNativeMapWithContents v

/-- map::readable::getValueType (OnLoad.cpp 408-410). -/
def map.readable.getValueType (m : NativeMap) (keyName : String) : Except Err ReadableType :=
  match map.readable.getMapValue m keyName with
  | .error e => .error e
  | .ok v => .ok (typeGetType v)

/-- ReadableNativeMapKeySeyIterator (OnLoad.cpp 48-56): a cursor into the
entry sequence of the backing map, modelled by the suffix of the snapshot
that the cursor has not yet passed. -/
structure KeySetIterator : Type where
  remaining : List (String × Dynamic)

/-- map::iterator creation (source name: map::iterator::initialize,
OnLoad.cpp 416-421): positions a fresh cursor at items().begin() of the
backing map. -/
def map.iterator.create (m : NativeMap) : Except Err KeySetIterator :=
  match folly.items m.map with
  | .ok kvs => .ok { remaining := kvs }
  | .error e => .error e

/-- map::iterator::hasNextKey (OnLoad.cpp 423-427): cursor not at end. -/
def map.iterator.hasNextKey (it : KeySetIterator) : Bool :=
  !it.remaining.isEmpty

/-- map::iterator::getNextKey (OnLoad.cpp 429-438): InvalidIterator when the
cursor is at the end (the source tests hasNextKey == JNI_FALSE); otherwise
the current key is returned and the cursor advances. -/
def map.iterator.getNextKey (it : KeySetIterator) : Except Err String × KeySetIterator :=
  match it.remaining with
  | [] => (.error (.invalidIterator ("No such element exists")), it)
  | (k, _) :: rest => (.ok k, { remaining := rest })

/-- Observer for stating iteration order: drains up to the given number of
keys through hasNextKey/getNextKey, exactly as the Java-side
while(hasNext) next loop would. -/
def map.iterator.collectKeys : Nat → KeySetIterator → List String
  | 0, _ => []
  | Nat.succ n, it =>
    if map.iterator.hasNextKey it then
      match map.iterator.getNextKey it with
      | (.ok k, it') => k :: map.iterator.collectKeys n it'
      | (.error _, _) => []
    else []

/-- MethodCall (react/MethodCall.h interface): one unit of a batch produced
by the executor. -/
structure MethodCall : Type where
  moduleId : Int
  methodId : Int
  arguments : Dynamic

/-- Host-observable effects of batch dispatch: a ReactCallback.call
invocation (gCallbackMethod) or a ReactCallback.onBatchComplete invocation
(gOnBatchCompleteMethod). -/
inductive HostEvent : Type where
  | onBatchCall (moduleId methodId : Int) (arguments : Dynamic) : HostEvent
  | onBatchComplete : HostEvent

/-- bridge::makeJavaCall (OnLoad.cpp 481-487): a call whose arguments value
is null is skipped outright; otherwise the callback's call method is
invoked with the call's fields (the arguments value is wrapped in a fresh
ReadableNativeArray on the way; the event carries the raw value). -/
def bridge.makeJavaCall (call : MethodCall) : List HostEvent :=
  if call.arguments.isNull then []
  else [HostEvent.onBatchCall call.moduleId call.methodId call.arguments]

/-- The for loop over the batch inside the deferred runnable
(OnLoad.cpp 516-521). -/
def bridge.deliverCalls : List MethodCall → List HostEvent
  | [] => []
  | call :: rest => bridge.makeJavaCall call ++ bridge.deliverCalls rest

/-- The deferred unit of work bound in bridge::dispatchCallbacksToJava
(OnLoad.cpp 508-524): resolve the callback weak reference; when it is gone
the batch is dropped silently; otherwise every call is delivered in order
and the batch-complete signal is emitted once. The JNI pending-exception
early exits are not modelled: the host callback is taken to return
normally. -/
def bridge.runnableFunction (callbackAlive : Bool) (calls : List MethodCall) : List HostEvent :=
  if callbackAlive then bridge.deliverCalls calls ++ [HostEvent.onBatchComplete]
  else []

/-- bridge::dispatchCallbacksToJava (OnLoad.cpp 493-528): the queue weak
reference is resolved at submission time; when it is gone the whole batch is
dropped; otherwise the runnable is enqueued FIFO on the host queue and later
produces the host-event trace. The function's value is the trace the host
observes for this batch. -/
def bridge.dispatchCallbacksToJava (queueAlive callbackAlive : Bool)
    (calls : List MethodCall) : List HostEvent :=
  if queueAlive then bridge.runnableFunction callbackAlive calls
  else []

/-- bridge::callFunction (OnLoad.cpp 560-574): the pair of (a) the call
vector handed to Bridge::executeJSCall and (b) the args container as the
call leaves it. moduleId and methodId are cast to double (exact for jint);
the container's value is moved out, which leaves it null, and its
isConsumed flag is not read or written. -/
def bridge.callFunction (moduleId methodId : Int) (args : NativeArray) :
    List Dynamic × NativeArray :=
  ([Dynamic.dbl (moduleId : ℚ), Dynamic.dbl (methodId : ℚ), args.array],
   { args with array := Dynamic.null })

/-- bridge::invokeCallback (OnLoad.cpp 576-589): same shape as callFunction
with a single callbackId slot. -/
def bridge.invokeCallback (callbackId : Int) (args : NativeArray) :
    List Dynamic × NativeArray :=
  ([Dynamic.dbl (callbackId : ℚ), args.array], { args with array := Dynamic.null })

/-- Reification of mergeMap's loop on the backing association lists:
erase-then-insert per source entry, in source order. -/
def mergeFold (dkvs : List (String × Dynamic)) : List (String × Dynamic) → List (String × Dynamic)
  | [] => dkvs
  | (k, v) :: rest => mergeFold (objInsert (objErase dkvs k) k v) rest

/-- Event classifier: is this host event a per-call invocation? -/
def isOnBatchCall : HostEvent → Bool
  | .onBatchCall _ _ _ => true
  | .onBatchComplete => false

/-- Number of per-call invocations the host observes in a trace. -/
def countBatchCalls (tr : List HostEvent) : Nat :=
  (tr.filter isOnBatchCall).length

/-- Number of batch-complete signals the host observes in a trace. -/
def countBatchComplete (tr : List HostEvent) : Nat :=
  (tr.filter (fun e => !isOnBatchCall e)).length

/-- Result classifier: did the operation fail with ObjectAlreadyConsumed? -/
def isObjectAlreadyConsumedErr {α : Type} : Except Err α → Bool
  | .error (.objectAlreadyConsumed _) => true
  | _ => false

/-! Helper lemmas about the association-list object model. -/

theorem objFind_objInsert_self (kvs : List (String × Dynamic)) (k : String) (v : Dynamic) :
    objFind (objInsert kvs k v) k = some v := by
  induction kvs with
  | nil => simp [objInsert, objFind]
  | cons p rest ih =>
    obtain ⟨k', v'⟩ := p
    by_cases h : k' = k
    · subst h; simp [objInsert, objFind]
    · simp [objInsert, objFind, h, ih]

theorem objFind_objInsert_ne (kvs : List (String × Dynamic)) (k q : String) (v : Dynamic)
    (h : q ≠ k) : objFind (objInsert kvs k v) q = objFind kvs q := by
  induction kvs with
  | nil => simp [objInsert, objFind, Ne.symm h]
  | cons p rest ih =>
    obtain ⟨k', v'⟩ := p
    by_cases hk : k' = k
    · subst hk; simp [objInsert, objFind, Ne.symm h]
    · by_cases hq : k' = q <;> simp [objInsert, objFind, hk, hq, ih, h]

theorem objFind_objErase_self (kvs : List (String × Dynamic)) (k : String) :
    objFind (objErase kvs k) k = none := by
  induction kvs with
  | nil => simp [objErase, objFind]
  | cons p rest ih =>
    obtain ⟨k', v'⟩ := p
    by_cases h : k' = k <;> simp [objErase, objFind, h, ih]

theorem objFind_objErase_ne (kvs : List (String × Dynamic)) (k q : String)
    (h : q ≠ k) : objFind (objErase kvs k) q = objFind kvs q := by
  induction kvs with
  | nil => simp [objErase, objFind]
  | cons p rest ih =>
    obtain ⟨k', v'⟩ := p
    by_cases hk : k' = k
    · subst hk; simp [objErase, objFind, Ne.symm h, ih]
    · by_cases hq : k' = q <;> simp [objErase, objFind, hk, hq, ih, h]

theorem objFind_eq_none_of_not_mem (kvs : List (String × Dynamic)) (k : String)
    (h : k ∉ kvs.map Prod.fst) : objFind kvs k = none := by
  induction kvs with
  | nil => simp [objFind]
  | cons p rest ih =>
    obtain ⟨k', v'⟩ := p
    simp only [List.map_cons, List.mem_cons, not_or] at h
    simp [objFind, Ne.symm h.1, ih h.2]

theorem list_get_concat_length {α : Type} (xs : List α) (x : α) :
    (xs ++ [x])[xs.length]? = some x := by
  induction xs with
  | nil => rfl
  | cons y ys ih => simp [ih]

/-! Helper lemmas about mergeMap's loop. -/

theorem mergeLoop_obj (skvs : List (String × Dynamic)) :
    ∀ dkvs, map.writable.mergeLoop (.obj dkvs) skvs = .ok (.obj (mergeFold dkvs skvs)) := by
  induction skvs with
  | nil => intro dkvs; simp [map.writable.mergeLoop, mergeFold]
  | cons p rest ih =>
    obtain ⟨k, v⟩ := p
    intro dkvs
    simp [map.writable.mergeLoop, folly.eraseKey, folly.insertKV, mergeFold, ih]

theorem objFind_mergeFold (skvs : List (String × Dynamic))
    (hnd : (skvs.map Prod.fst).Nodup) :
    ∀ dkvs q, objFind (mergeFold dkvs skvs) q =
      match objFind skvs q with
      | some v => some v
      | none => objFind dkvs q := by
  induction skvs with
  | nil => intro dkvs q; simp [mergeFold, objFind]
  | cons p rest ih =>
    obtain ⟨k, v⟩ := p
    simp only [List.map_cons, List.nodup_cons] at hnd
    intro dkvs q
    by_cases hq : q = k
    · subst hq
      rw [mergeFold, ih hnd.2]
      rw [objFind_eq_none_of_not_mem rest q hnd.1]
      simp [objFind, objFind_objInsert_self]
    · rw [mergeFold, ih hnd.2]
      cases h : objFind rest q <;>
        simp [objFind, Ne.symm hq, h,
          objFind_objInsert_ne _ _ _ _ hq, objFind_objErase_ne _ _ _ hq]

/-! Claim theorems. -/

/-- C8: a DynamicValue whose stored representation is an integer, read as a
double (getDouble on an array index or getDouble on a map key), succeeds
and returns the widened value of that integer rather than failing with a
type mismatch. The magnitude bound marks the range on which the model's
exact Int → ℚ widening coincides with the C++ int64 → double conversion. -/
theorem C8_int_read_as_double (a : NativeArray) (xs : List Dynamic) (i : Nat) (n : Int)
    (m : NativeMap) (kvs : List (String × Dynamic)) (k : String)
    (ha : a.array = .arr xs) (hx : xs[i]? = some (.int n))
    (hm : m.map = .obj kvs) (hk : objFind kvs k = some (.int n))
    (_hrange : n.natAbs ≤ 2 ^ 53) :
    ReadableNativeArray.getDouble a i = .ok (n : ℚ) ∧
    map.readable.getDoubleKey m k = .ok (n : ℚ) := by
  constructor
  · simp [ReadableNativeArray.getDouble, folly.atIndex, ha, hx, translateTypeError]
  · simp [map.readable.getDoubleKey, map.readable.getMapValue, folly.atKey, hm, hk]

/-- Witness for C8 at the spec's own example: integer 7 reads back as the
exact double 7.0 from an array slot and from a map key. -/
theorem C8_int_read_as_double_witness :
    ReadableNativeArray.getDouble ⟨false, Dynamic.arr [Dynamic.int 7]⟩ 0 = .ok (7 : ℚ) ∧
    map.readable.getDoubleKey ⟨false, Dynamic.obj [(("k"), Dynamic.int 7)]⟩ ("k") = .ok (7 : ℚ) := by
  have h := C8_int_read_as_double ⟨false, Dynamic.arr [Dynamic.int 7]⟩ [Dynamic.int 7] 0 7
    ⟨false, Dynamic.obj [(("k"), Dynamic.int 7)]⟩ [(("k"), Dynamic.int 7)] ("k")
    rfl rfl rfl rfl (by norm_num)
  simpa using h

/-- C9: on an unconsumed container, pushing or putting a null reference
(pushString/pushArray/pushMap with a null argument, putString/putArray/
putMap with a null value) inserts a null DynamicValue instead of failing. -/
theorem C9_null_reference_inserts_null (p : NativeArray) (pxs : List Dynamic)
    (pm : NativeMap) (pkvs : List (String × Dynamic)) (k : String)
    (hp : p.isConsumed = false) (hpa : p.array = .arr pxs)
    (hm : pm.isConsumed = false) (hmm : pm.map = .obj pkvs) :
    WritableNativeArray.pushString p none = (.ok (), ⟨false, .arr (pxs ++ [.null])⟩) ∧
    WritableNativeArray.pushArray p none = (.ok (), ⟨false, .arr (pxs ++ [.null])⟩, none) ∧
    WritableNativeArray.pushMap p none = (.ok (), ⟨false, .arr (pxs ++ [.null])⟩, none) ∧
    map.writable.putString pm k none = (.ok (), ⟨false, .obj (objInsert pkvs k .null)⟩) ∧
    map.writable.putArray pm k none = (.ok (), ⟨false, .obj (objInsert pkvs k .null)⟩, none) ∧
    map.writable.putMap pm k none = (.ok (), ⟨false, .obj (objInsert pkvs k .null)⟩, none) := by
  refine ⟨?_, ?_, ?_, ?_, ?_, ?_⟩ <;>
    simp [WritableNativeArray.pushString, WritableNativeArray.pushArray,
      WritableNativeArray.pushMap, WritableNativeArray.pushNull,
      map.writable.putString, map.writable.putArray, map.writable.putMap,
      map.writable.putNull, throwIfObjectAlreadyConsumed, folly.pushBack,
      folly.insertKV, hp, hpa, hm, hmm]

/-- C2: pushArray/pushMap on an unconsumed array and putArray/putMap on an
unconsumed map, given a non-null unconsumed source container, move the
source's underlying value into the parent (reading the transferred slot
back yields a value structurally equal to the source's original value),
leave the source null, and set the source's consumed flag; an
already-consumed source fails with ObjectAlreadyConsumed naming the
source. -/
theorem C2_ownership_transfer (p : NativeArray) (pxs : List Dynamic)
    (pm : NativeMap) (pkvs : List (String × Dynamic)) (k : String)
    (sa : NativeArray) (sm : NativeMap)
    (hp : p.isConsumed = false) (hpa : p.array = .arr pxs)
    (hm : pm.isConsumed = false) (hmm : pm.map = .obj pkvs) :
    (sa.isConsumed = false →
      WritableNativeArray.pushArray p (some sa) =
        (.ok (), ⟨false, .arr (pxs ++ [sa.array])⟩, some ⟨true, .null⟩) ∧
      folly.atIndex (.arr (pxs ++ [sa.array])) pxs.length = .ok sa.array) ∧
    (sa.isConsumed = true →
      WritableNativeArray.pushArray p (some sa) =
        (.error (.objectAlreadyConsumed ("Array to push already consumed")), p, some sa)) ∧
    (sm.isConsumed = false →
      WritableNativeArray.pushMap p (some sm) =
        (.ok (), ⟨false, .arr (pxs ++ [sm.map])⟩, some ⟨true, .null⟩) ∧
      folly.atIndex (.arr (pxs ++ [sm.map])) pxs.length = .ok sm.map) ∧
    (sm.isConsumed = true →
      WritableNativeArray.pushMap p (some sm) =
        (.error (.objectAlreadyConsumed ("Map to push already consumed")), p, some sm)) ∧
    (sa.isConsumed = false →
      map.writable.putArray pm k (some sa) =
        (.ok (), ⟨false, .obj (objInsert pkvs k sa.array)⟩, some ⟨true, .null⟩) ∧
      folly.atKey (.obj (objInsert pkvs k sa.array)) k = .ok sa.array) ∧
    (sa.isConsumed = true →
      map.writable.putArray pm k (some sa) =
        (.error (.objectAlreadyConsumed ("Array to put already consumed")), pm, some sa)) ∧
    (sm.isConsumed = false →
      map.writable.putMap pm k (some sm) =
        (.ok (), ⟨false, .obj (objInsert pkvs k sm.map)⟩, some ⟨true, .null⟩) ∧
      folly.atKey (.obj (objInsert pkvs k sm.map)) k = .ok sm.map) ∧
    (sm.isConsumed = true →
      map.writable.putMap pm k (some sm) =
        (.error (.objectAlreadyConsumed ("Map to put already consumed")), pm, some sm)) := by
  refine ⟨fun h => ⟨?_, ?_⟩, fun h => ?_, fun h => ⟨?_, ?_⟩, fun h => ?_,
         fun h => ⟨?_, ?_⟩, fun h => ?_, fun h => ⟨?_, ?_⟩, fun h => ?_⟩ <;>
    simp [WritableNativeArray.pushArray, WritableNativeArray.pushMap,
      map.writable.putArray, map.writable.putMap, throwIfObjectAlreadyConsumed,
      folly.pushBack, folly.insertKV, folly.atIndex, folly.atKey,
      list_get_concat_length, objFind_objInsert_self, hp, hpa, hm, hmm, h]

/-- Witness for C2: a successful transfer of a one-element array into an
empty array, and a rejected transfer of an already-consumed map source. -/
theorem C2_ownership_transfer_witness :
    WritableNativeArray.pushArray ⟨false, Dynamic.arr []⟩
        (some ⟨false, Dynamic.arr [Dynamic.int 1]⟩) =
      (.ok (), ⟨false, Dynamic.arr [Dynamic.arr [Dynamic.int 1]]⟩,
        some ⟨true, Dynamic.null⟩) ∧
    map.writable.putMap ⟨false, Dynamic.obj []⟩ ("k") (some ⟨true, Dynamic.null⟩) =
      (.error (.objectAlreadyConsumed ("Map to put already consumed")),
        ⟨false, Dynamic.obj []⟩, some ⟨true, Dynamic.null⟩) := by
  have h := C2_ownership_transfer ⟨false, Dynamic.arr []⟩ [] ⟨false, Dynamic.obj []⟩ []
    ("k") ⟨false, Dynamic.arr [Dynamic.int 1]⟩ ⟨true, Dynamic.null⟩ rfl rfl rfl rfl
  exact ⟨(h.1 rfl).1, h.2.2.2.2.2.2.2 rfl⟩

/-- The Java-side drain loop over a key iterator returns the snapshot's keys
in snapshot order. -/
theorem collectKeys_drains (kvs : List (String × Dynamic)) :
    map.iterator.collectKeys kvs.length ⟨kvs⟩ = kvs.map Prod.fst := by
  induction kvs with
  | nil => rfl
  | cons p rest ih =>
    obtain ⟨k, v⟩ := p
    simp [map.iterator.collectKeys, map.iterator.hasNextKey,
      map.iterator.getNextKey, ih]

/-- C6: mergeMap, with both maps unconsumed, produces a destination where
every source key maps to the source's value (overwrite-or-insert) and every
other key keeps the destination's original value; the destination stays
unconsumed and the source container (value and flag) is untouched. -/
theorem C6_merge_last_writer_wins (dest source : NativeMap)
    (dkvs skvs : List (String × Dynamic)) (q : String)
    (hd : dest.isConsumed = false) (hs : source.isConsumed = false)
    (hdm : dest.map = .obj dkvs) (hsm : source.map = .obj skvs)
    (hnd : (skvs.map Prod.fst).Nodup) :
    map.writable.mergeMap dest source =
      (.ok (), ⟨false, .obj (mergeFold dkvs skvs)⟩, source) ∧
    objFind (mergeFold dkvs skvs) q =
      (match objFind skvs q with
       | some v => some v
       | none => objFind dkvs q) := by
  constructor
  · simp [map.writable.mergeMap, throwIfObjectAlreadyConsumed, hd, hs, hdm, hsm,
      folly.items, mergeLoop_obj]
  · exact objFind_mergeFold skvs hnd dkvs q

/-- Witness for C6: merging source b=9,c=3 into destination a=1,b=2 gives
a=1,b=9,c=3; the source comes back unchanged and unconsumed. -/
theorem C6_merge_last_writer_wins_witness :
    map.writable.mergeMap
        ⟨false, Dynamic.obj [(("a"), Dynamic.int 1), (("b"), Dynamic.int 2)]⟩
        ⟨false, Dynamic.obj [(("b"), Dynamic.int 9), (("c"), Dynamic.int 3)]⟩ =
      (.ok (),
        ⟨false, Dynamic.obj
          [(("a"), Dynamic.int 1), (("b"), Dynamic.int 9), (("c"), Dynamic.int 3)]⟩,
        ⟨false, Dynamic.obj [(("b"), Dynamic.int 9), (("c"), Dynamic.int 3)]⟩) := by
  have h := C6_merge_last_writer_wins
    ⟨false, Dynamic.obj [(("a"), Dynamic.int 1), (("b"), Dynamic.int 2)]⟩
    ⟨false, Dynamic.obj [(("b"), Dynamic.int 9), (("c"), Dynamic.int 3)]⟩
    [(("a"), Dynamic.int 1), (("b"), Dynamic.int 2)]
    [(("b"), Dynamic.int 9), (("c"), Dynamic.int 3)] ("b")
    rfl rfl rfl rfl (by decide)
  exact h.1

/-- C7: a key iterator snapshots the map's entries; hasNext is true exactly
while the cursor has not reached the end; next on a non-exhausted iterator
returns the current key and advances (so a full drain yields the keys in
snapshot order); next on an exhausted iterator fails with InvalidIterator. -/
theorem C7_key_iterator (m : NativeMap) (kvs : List (String × Dynamic))
    (it : KeySetIterator) (k : String) (v : Dynamic) (rest : List (String × Dynamic))
    (hm : m.map = .obj kvs) :
    map.iterator.create m = .ok ⟨kvs⟩ ∧
    map.iterator.collectKeys kvs.length ⟨kvs⟩ = kvs.map Prod.fst ∧
    (map.iterator.hasNextKey it = true ↔ it.remaining ≠ []) ∧
    (it.remaining = [] →
      map.iterator.getNextKey it =
        (.error (.invalidIterator ("No such element exists")), it)) ∧
    (it.remaining = (k, v) :: rest →
      map.iterator.getNextKey it = (.ok k, ⟨rest⟩)) := by
  refine ⟨?_, collectKeys_drains kvs, ?_, fun h => ?_, fun h => ?_⟩
  · simp [map.iterator.create, folly.items, hm]
  · cases hr : it.remaining <;> simp [map.iterator.hasNextKey, hr]
  · simp [map.iterator.getNextKey, h]
  · simp [map.iterator.getNextKey, h]

/-- Witness for C7 at the spec's example keys a, b, c: creation snapshots
the three entries, draining yields a, b, c in order, and next on the
exhausted iterator fails with InvalidIterator. -/
theorem C7_key_iterator_witness :
    map.iterator.create
        ⟨false, Dynamic.obj
          [(("a"), Dynamic.null), (("b"), Dynamic.null), (("c"), Dynamic.null)]⟩ =
      .ok ⟨[(("a"), Dynamic.null), (("b"), Dynamic.null), (("c"), Dynamic.null)]⟩ ∧
    map.iterator.collectKeys 3
        ⟨[(("a"), Dynamic.null), (("b"), Dynamic.null), (("c"), Dynamic.null)]⟩ =
      [("a"), ("b"), ("c")] ∧
    map.iterator.getNextKey ⟨[]⟩ =
      (.error (.invalidIterator ("No such element exists")), ⟨[]⟩) := by
  have h := C7_key_iterator
    ⟨false, Dynamic.obj
      [(("a"), Dynamic.null), (("b"), Dynamic.null), (("c"), Dynamic.null)]⟩
    [(("a"), Dynamic.null), (("b"), Dynamic.null), (("c"), Dynamic.null)]
    ⟨[]⟩ ("") Dynamic.null [] rfl
  exact ⟨h.1, h.2.1, h.2.2.2.1 rfl⟩

/-- Witness for C9: pushing a null string onto a fresh array stores a null
value; putting a null map value under a key stores a null value. -/
theorem C9_null_reference_inserts_null_witness :
    WritableNativeArray.pushString ⟨false, Dynamic.arr []⟩ none =
      (.ok (), ⟨false, Dynamic.arr [Dynamic.null]⟩) ∧
    map.writable.putMap ⟨false, Dynamic.obj []⟩ ("x") none =
      (.ok (), ⟨false, Dynamic.obj [(("x"), Dynamic.null)]⟩, none) := by
  have h := C9_null_reference_inserts_null ⟨false, Dynamic.arr []⟩ []
    ⟨false, Dynamic.obj []⟩ [] ("x") rfl rfl rfl rfl
  exact ⟨h.1, h.2.2.2.2.2⟩

/-! Helper lemmas about the dispatch trace. -/

theorem deliverCalls_all_nonnull (calls : List MethodCall)
    (h : ∀ c ∈ calls, c.arguments.isNull = false) :
    bridge.deliverCalls calls =
      calls.map (fun c => HostEvent.onBatchCall c.moduleId c.methodId c.arguments) := by
  induction calls with
  | nil => rfl
  | cons c rest ih =>
    have hc := h c (by simp)
    have hr : ∀ x ∈ rest, x.arguments.isNull = false := fun x hx => h x (by simp [hx])
    simp [bridge.deliverCalls, bridge.makeJavaCall, hc, ih hr]

theorem countBatchCalls_append (xs ys : List HostEvent) :
    countBatchCalls (xs ++ ys) = countBatchCalls xs + countBatchCalls ys := by
  simp [countBatchCalls, List.filter_append]

theorem countBatchComplete_append (xs ys : List HostEvent) :
    countBatchComplete (xs ++ ys) = countBatchComplete xs + countBatchComplete ys := by
  simp [countBatchComplete, List.filter_append]

theorem countBatchCalls_deliverCalls (calls : List MethodCall) :
    countBatchCalls (bridge.deliverCalls calls) =
      (calls.filter (fun c => !c.arguments.isNull)).length := by
  induction calls with
  | nil => rfl
  | cons c rest ih =>
    rw [bridge.deliverCalls, countBatchCalls_append, ih]
    cases hc : c.arguments.isNull <;>
      (simp [bridge.makeJavaCall, hc, countBatchCalls, isOnBatchCall]; try omega)

theorem countBatchComplete_deliverCalls (calls : List MethodCall) :
    countBatchComplete (bridge.deliverCalls calls) = 0 := by
  induction calls with
  | nil => rfl
  | cons c rest ih =>
    rw [bridge.deliverCalls, countBatchComplete_append, ih]
    cases hc : c.arguments.isNull <;>
      simp [bridge.makeJavaCall, hc, countBatchComplete, isOnBatchCall]

/-- C4 (amended): with both the callback and the queue alive, the host
callback is invoked once per call whose arguments are non-null, with
(moduleId, methodId, arguments) in the exact order the executor produced
the calls, followed by exactly one batch-complete signal. (As stated the
claim fails for calls with null arguments, which makeJavaCall skips; see
the counterexample.) -/
theorem C4_batch_delivery_order (calls : List MethodCall)
    (h : ∀ c ∈ calls, c.arguments.isNull = false) :
    bridge.dispatchCallbacksToJava true true calls =
      calls.map (fun c => HostEvent.onBatchCall c.moduleId c.methodId c.arguments)
        ++ [HostEvent.onBatchComplete] := by
  simp [bridge.dispatchCallbacksToJava, bridge.runnableFunction,
    deliverCalls_all_nonnull calls h]

/-- Witness for C4 (amended) on a three-call batch: the three per-call
invocations arrive in production order, then one batch-complete. -/
theorem C4_batch_delivery_order_witness :
    bridge.dispatchCallbacksToJava true true
        [⟨1, 1, Dynamic.bool true⟩, ⟨2, 2, Dynamic.int 0⟩, ⟨3, 3, Dynamic.arr []⟩] =
      [HostEvent.onBatchCall 1 1 (Dynamic.bool true),
       HostEvent.onBatchCall 2 2 (Dynamic.int 0),
       HostEvent.onBatchCall 3 3 (Dynamic.arr []),
       HostEvent.onBatchComplete] := by
  have h := C4_batch_delivery_order
    [⟨1, 1, Dynamic.bool true⟩, ⟨2, 2, Dynamic.int 0⟩, ⟨3, 3, Dynamic.arr []⟩]
    (by decide)
  simpa using h

/-- Counterexample to C4 as stated: with callback and queue both alive, a
batch of one call whose arguments value is null yields zero per-call
invocations (the claim requires one onBatchCall for it). -/
theorem C4_counterexample :
    bridge.dispatchCallbacksToJava true true [⟨7, 8, Dynamic.null⟩] =
      [HostEvent.onBatchComplete] ∧
    countBatchCalls (bridge.dispatchCallbacksToJava true true [⟨7, 8, Dynamic.null⟩]) = 0 := by
  constructor <;> rfl

/-- C5: when the callback weak handle resolves to gone at the time the
deferred unit of work runs (the queue was alive at submission), the host
observes no events at all for the batch — zero per-call invocations and
zero batch-complete signals — and the dispatch path yields no error value
to surface to the original caller. -/
theorem C5_dead_callback_silent_drop (calls : List MethodCall) :
    bridge.dispatchCallbacksToJava true false calls = [] ∧
    countBatchCalls (bridge.dispatchCallbacksToJava true false calls) = 0 ∧
    countBatchComplete (bridge.dispatchCallbacksToJava true false calls) = 0 := by
  refine ⟨?_, ?_, ?_⟩ <;>
    simp [bridge.dispatchCallbacksToJava, bridge.runnableFunction,
      countBatchCalls, countBatchComplete]

/-- C10: with callback and queue alive, the host observes exactly one
per-call invocation for each call with non-null arguments (null-argument
calls are skipped while delivery continues), the batch-complete signal is
still emitted exactly once, and a batch containing a null-argument call
yields strictly fewer onBatchCall invocations than it has calls. -/
theorem C10_null_arguments_skipped (calls : List MethodCall) :
    countBatchCalls (bridge.dispatchCallbacksToJava true true calls) =
      (calls.filter (fun c => !c.arguments.isNull)).length ∧
    countBatchComplete (bridge.dispatchCallbacksToJava true true calls) = 1 ∧
    ((∃ c ∈ calls, c.arguments.isNull = true) →
      countBatchCalls (bridge.dispatchCallbacksToJava true true calls) < calls.length) := by
  have hdef : bridge.dispatchCallbacksToJava true true calls =
      bridge.deliverCalls calls ++ [HostEvent.onBatchComplete] := rfl
  have hc : countBatchCalls (bridge.dispatchCallbacksToJava true true calls) =
      (calls.filter (fun c => !c.arguments.isNull)).length := by
    rw [hdef, countBatchCalls_append, countBatchCalls_deliverCalls]
    simp [countBatchCalls, isOnBatchCall]
  refine ⟨hc, ?_, ?_⟩
  · rw [hdef, countBatchComplete_append, countBatchComplete_deliverCalls]
    simp [countBatchComplete, isOnBatchCall]
  · rintro ⟨c, hmem, hnull⟩
    rw [hc]
    refine List.length_filter_lt_length_iff_exists.mpr ⟨c, hmem, ?_⟩
    simp [hnull]

/-- Witness for C10: a two-call batch whose second call has null arguments
produces one per-call invocation, one batch-complete, and strictly fewer
invocations than calls. -/
theorem C10_null_arguments_skipped_witness :
    countBatchCalls (bridge.dispatchCallbacksToJava true true
      [⟨1, 1, Dynamic.int 0⟩, ⟨2, 2, Dynamic.null⟩]) = 1 ∧
    countBatchComplete (bridge.dispatchCallbacksToJava true true
      [⟨1, 1, Dynamic.int 0⟩, ⟨2, 2, Dynamic.null⟩]) = 1 ∧
    countBatchCalls (bridge.dispatchCallbacksToJava true true
      [⟨1, 1, Dynamic.int 0⟩, ⟨2, 2, Dynamic.null⟩]) < 2 := by
  have h := C10_null_arguments_skipped [⟨1, 1, Dynamic.int 0⟩, ⟨2, 2, Dynamic.null⟩]
  refine ⟨by simpa using h.1, h.2.1, ?_⟩
  have hlt := h.2.2 ⟨⟨2, 2, Dynamic.null⟩, List.mem_cons_of_mem _ (List.mem_cons_self _ _), rfl⟩
  simpa using hlt

/-! Helper lemmas: no value-extracting operation can report
ObjectAlreadyConsumed, because none of them consults the consumed flag. -/

theorem translateTypeError_noOAC {α : Type} (r : Except Err α) :
    isObjectAlreadyConsumedErr (translateTypeError r) = isObjectAlreadyConsumedErr r := by
  cases r with
  | ok a => rfl
  | error e => cases e <;> rfl

theorem atIndex_noOAC (d : Dynamic) (i : Nat) :
    isObjectAlreadyConsumedErr (folly.atIndex d i) = false := by
  cases d
  case arr xs =>
    cases h : xs[i]? <;> simp [folly.atIndex, h, isObjectAlreadyConsumedErr]
  all_goals rfl

theorem atKey_noOAC (d : Dynamic) (k : String) :
    isObjectAlreadyConsumedErr (folly.atKey d k) = false := by
  cases d
  case obj kvs =>
    cases h : objFind kvs k <;> simp [folly.atKey, h, isObjectAlreadyConsumedErr]
  all_goals rfl

theorem getMapValue_noOAC (m : NativeMap) (k : String) :
    isObjectAlreadyConsumedErr (map.readable.getMapValue m k) = false := by
  have h := atKey_noOAC m.map k
  unfold map.readable.getMapValue
  cases hr : folly.atKey m.map k with
  | ok v => simp [isObjectAlreadyConsumedErr]
  | error e => cases e <;> simp_all [isObjectAlreadyConsumedErr]

theorem hasKey_noOAC (m : NativeMap) (k : String) :
    isObjectAlreadyConsumedErr (map.readable.hasKey m k) = false := by
  cases h : m.map <;> simp [map.readable.hasKey, folly.findKey, h, isObjectAlreadyConsumedErr]

theorem isNullKey_noOAC (m : NativeMap) (k : String) :
    isObjectAlreadyConsumedErr (map.readable.isNull m k) = false := by
  have h := getMapValue_noOAC m k
  unfold map.readable.isNull
  cases hr : map.readable.getMapValue m k with
  | ok v => simp [isObjectAlreadyConsumedErr]
  | error e => cases e <;> simp_all [isObjectAlreadyConsumedErr]

theorem getBooleanKey_noOAC (m : NativeMap) (k : String) :
    isObjectAlreadyConsumedErr (map.readable.getBooleanKey m k) = false := by
  have h := getMapValue_noOAC m k
  unfold map.readable.getBooleanKey
  rw [translateTypeError_noOAC]
  cases hr : map.readable.getMapValue m k with
  | ok v => cases v <;> simp [folly.getBool, isObjectAlreadyConsumedErr]
  | error e => cases e <;> simp_all [isObjectAlreadyConsumedErr]

theorem getDoubleKey_noOAC (m : NativeMap) (k : String) :
    isObjectAlreadyConsumedErr (map.readable.getDoubleKey m k) = false := by
  have h := getMapValue_noOAC m k
  unfold map.readable.getDoubleKey
  cases hr : map.readable.getMapValue m k with
  | ok v =>
    cases v <;> simp [folly.getDouble, translateTypeError, isObjectAlreadyConsumedErr]
  | error e => cases e <;> simp_all [isObjectAlreadyConsumedErr]

theorem getStringKey_noOAC (m : NativeMap) (k : String) :
    isObjectAlreadyConsumedErr (map.readable.getStringKey m k) = false := by
  have h := getMapValue_noOAC m k
  unfold map.readable.getStringKey
  cases hr : map.readable.getMapValue m k with
  | ok v =>
    cases v <;> simp [folly.getString, translateTypeError, isObjectAlreadyConsumedErr]
  | error e => cases e <;> simp_all [isObjectAlreadyConsumedErr]

theorem getArrayKey_noOAC (m : NativeMap) (k : String) :
    isObjectAlreadyConsumedErr (map.readable.getArrayKey m k) = false := by
  have h := getMapValue_noOAC m k
  unfold map.readable.getArrayKey
  cases hr : map.readable.getMapValue m k with
  | ok v =>
    cases v <;> simp [createReadableNativeArrayWithContents, isObjectAlreadyConsumedErr]
  | error e => cases e <;> simp_all [isObjectAlreadyConsumedErr]

theorem getMapKey_noOAC (m : NativeMap) (k : String) :
    isObjectAlreadyConsumedErr (map.readable.getMapKey m k) = false := by
  have h := getMapValue_noOAC m k
  unfold map.readable.getMapKey
  cases hr : map.readable.getMapValue m k with
  | ok v =>
    cases v <;> simp [createReadableNativeMapWithContents, isObjectAlreadyConsumedErr]
  | error e => cases e <;> simp_all [isObjectAlreadyConsumedErr]

theorem getValueType_noOAC (m : NativeMap) (k : String) :
    isObjectAlreadyConsumedErr (map.readable.getValueType m k) = false := by
  have h := getMapValue_noOAC m k
  unfold map.readable.getValueType
  cases hr : map.readable.getMapValue m k with
  | ok v => simp [isObjectAlreadyConsumedErr]
  | error e => cases e <;> simp_all [isObjectAlreadyConsumedErr]

theorem getSize_noOAC (a : NativeArray) :
    isObjectAlreadyConsumedErr (ReadableNativeArray.getSize a) = false := by
  unfold ReadableNativeArray.getSize
  rw [translateTypeError_noOAC]
  cases a.array <;> simp [folly.size, isObjectAlreadyConsumedErr]

theorem arrIsNull_noOAC (a : NativeArray) (i : Nat) :
    isObjectAlreadyConsumedErr (ReadableNativeArray.isNull a i) = false := by
  have h := atIndex_noOAC a.array i
  unfold ReadableNativeArray.isNull
  rw [translateTypeError_noOAC]
  cases hr : folly.atIndex a.array i with
  | ok v => simp [isObjectAlreadyConsumedErr]
  | error e => cases e <;> simp_all [isObjectAlreadyConsumedErr]

theorem arrGetBoolean_noOAC (a : NativeArray) (i : Nat) :
    isObjectAlreadyConsumedErr (ReadableNativeArray.getBoolean a i) = false := by
  have h := atIndex_noOAC a.array i
  unfold ReadableNativeArray.getBoolean
  rw [translateTypeError_noOAC]
  cases hr : folly.atIndex a.array i with
  | ok v => cases v <;> simp [folly.getBool, isObjectAlreadyConsumedErr]
  | error e => cases e <;> simp_all [isObjectAlreadyConsumedErr]

theorem arrGetDouble_noOAC (a : NativeArray) (i : Nat) :
    isObjectAlreadyConsumedErr (ReadableNativeArray.getDouble a i) = false := by
  have h := atIndex_noOAC a.array i
  unfold ReadableNativeArray.getDouble
  rw [translateTypeError_noOAC]
  cases hr : folly.atIndex a.array i with
  | ok v => cases v <;> simp [folly.getDouble, isObjectAlreadyConsumedErr]
  | error e => cases e <;> simp_all [isObjectAlreadyConsumedErr]

theorem arrGetString_noOAC (a : NativeArray) (i : Nat) :
    isObjectAlreadyConsumedErr (ReadableNativeArray.getString a i) = false := by
  have h := atIndex_noOAC a.array i
  unfold ReadableNativeArray.getString
  rw [translateTypeError_noOAC]
  cases hr : folly.atIndex a.array i with
  | ok v => cases v <;> simp [folly.getString, isObjectAlreadyConsumedErr]
  | error e => cases e <;> simp_all [isObjectAlreadyConsumedErr]

theorem arrGetArray_noOAC (a : NativeArray) (i : Nat) :
    isObjectAlreadyConsumedErr (ReadableNativeArray.getArray a i) = false := by
  have h := atIndex_noOAC a.array i
  unfold ReadableNativeArray.getArray
  rw [translateTypeError_noOAC]
  cases hr : folly.atIndex a.array i with
  | ok v =>
    cases v <;> simp [createReadableNativeArrayWithContents, isObjectAlreadyConsumedErr]
  | error e => cases e <;> simp_all [isObjectAlreadyConsumedErr]

theorem arrGetMap_noOAC (a : NativeArray) (i : Nat) :
    isObjectAlreadyConsumedErr (ReadableNativeArray.getMap a i) = false := by
  have h := atIndex_noOAC a.array i
  unfold ReadableNativeArray.getMap
  rw [translateTypeError_noOAC]
  cases hr : folly.atIndex a.array i with
  | ok v =>
    cases v <;> simp [createReadableNativeMapWithContents, isObjectAlreadyConsumedErr]
  | error e => cases e <;> simp_all [isObjectAlreadyConsumedErr]

theorem arrGetType_noOAC (a : NativeArray) (i : Nat) :
    isObjectAlreadyConsumedErr (ReadableNativeArray.getType a i) = false := by
  have h := atIndex_noOAC a.array i
  unfold ReadableNativeArray.getType
  rw [translateTypeError_noOAC]
  cases hr : folly.atIndex a.array i with
  | ok v => simp [isObjectAlreadyConsumedErr]
  | error e => cases e <;> simp_all [isObjectAlreadyConsumedErr]

/-- C1 (amended): on a consumed container every mutating operation
(pushNull/pushBoolean/pushDouble/pushString/pushArray/pushMap,
putNull/putBoolean/putDouble/putString/putArray/putMap, merge in either
role) and toString fail with ObjectAlreadyConsumed and leave the involved
containers unchanged; the value-extracting operations (hasKey, isNull,
getBoolean, getDouble, getString, getArray, getMap, getType, on maps and
arrays alike) perform no consumed check and never fail with
ObjectAlreadyConsumed. -/
theorem C1_consumed_container (a : NativeArray) (m : NativeMap)
    (b : Bool) (q : ℚ) (s k : String) (i : Nat)
    (sa : NativeArray) (sm : NativeMap) (src dst : NativeMap)
    (ha : a.isConsumed = true) (hm : m.isConsumed = true) :
    WritableNativeArray.pushNull a =
      (.error (.objectAlreadyConsumed ("Array already consumed")), a) ∧
    WritableNativeArray.pushBoolean a b =
      (.error (.objectAlreadyConsumed ("Array already consumed")), a) ∧
    WritableNativeArray.pushDouble a q =
      (.error (.objectAlreadyConsumed ("Receiving array already consumed")), a) ∧
    WritableNativeArray.pushString a (some s) =
      (.error (.objectAlreadyConsumed ("Receiving array already consumed")), a) ∧
    WritableNativeArray.pushArray a (some sa) =
      (.error (.objectAlreadyConsumed ("Receiving array already consumed")), a, some sa) ∧
    WritableNativeArray.pushMap a (some sm) =
      (.error (.objectAlreadyConsumed ("Receiving array already consumed")), a, some sm) ∧
    map.writable.putNull m k =
      (.error (.objectAlreadyConsumed ("Receiving map already consumed")), m) ∧
    map.writable.putBoolean m k b =
      (.error (.objectAlreadyConsumed ("Receiving map already consumed")), m) ∧
    map.writable.putDouble m k q =
      (.error (.objectAlreadyConsumed ("Receiving map already consumed")), m) ∧
    map.writable.putString m k (some s) =
      (.error (.objectAlreadyConsumed ("Receiving map already consumed")), m) ∧
    map.writable.putArray m k (some sa) =
      (.error (.objectAlreadyConsumed ("Receiving map already consumed")), m, some sa) ∧
    map.writable.putMap m k (some sm) =
      (.error (.objectAlreadyConsumed ("Receiving map already consumed")), m, some sm) ∧
    (isObjectAlreadyConsumedErr (map.writable.mergeMap m src).1 = true ∧
      (map.writable.mergeMap m src).2 = (m, src)) ∧
    map.writable.mergeMap dst m =
      (.error (.objectAlreadyConsumed ("Source map already consumed")), dst, m) ∧
    map.toString m = .error (.objectAlreadyConsumed ("Map already consumed")) ∧
    isObjectAlreadyConsumedErr (map.readable.hasKey m k) = false ∧
    isObjectAlreadyConsumedErr (map.readable.isNull m k) = false ∧
    isObjectAlreadyConsumedErr (map.readable.getBooleanKey m k) = false ∧
    isObjectAlreadyConsumedErr (map.readable.getDoubleKey m k) = false ∧
    isObjectAlreadyConsumedErr (map.readable.getStringKey m k) = false ∧
    isObjectAlreadyConsumedErr (map.readable.getArrayKey m k) = false ∧
    isObjectAlreadyConsumedErr (map.readable.getMapKey m k) = false ∧
    isObjectAlreadyConsumedErr (map.readable.getValueType m k) = false ∧
    isObjectAlreadyConsumedErr (ReadableNativeArray.getSize a) = false ∧
    isObjectAlreadyConsumedErr (ReadableNativeArray.isNull a i) = false ∧
    isObjectAlreadyConsumedErr (ReadableNativeArray.getBoolean a i) = false ∧
    isObjectAlreadyConsumedErr (ReadableNativeArray.getDouble a i) = false ∧
    isObjectAlreadyConsumedErr (ReadableNativeArray.getString a i) = false ∧
    isObjectAlreadyConsumedErr (ReadableNativeArray.getArray a i) = false ∧
    isObjectAlreadyConsumedErr (ReadableNativeArray.getMap a i) = false ∧
    isObjectAlreadyConsumedErr (ReadableNativeArray.getType a i) = false := by
  refine ⟨?_, ?_, ?_, ?_, ?_, ?_, ?_, ?_, ?_, ?_, ?_, ?_, ⟨?_, ?_⟩, ?_, ?_,
    hasKey_noOAC m k, isNullKey_noOAC m k, getBooleanKey_noOAC m k,
    getDoubleKey_noOAC m k, getStringKey_noOAC m k, getArrayKey_noOAC m k,
    getMapKey_noOAC m k, getValueType_noOAC m k, getSize_noOAC a,
    arrIsNull_noOAC a i, arrGetBoolean_noOAC a i, arrGetDouble_noOAC a i,
    arrGetString_noOAC a i, arrGetArray_noOAC a i, arrGetMap_noOAC a i,
    arrGetType_noOAC a i⟩
  · simp [WritableNativeArray.pushNull, throwIfObjectAlreadyConsumed, ha]
  · simp [WritableNativeArray.pushBoolean, throwIfObjectAlreadyConsumed, ha]
  · simp [WritableNativeArray.pushDouble, throwIfObjectAlreadyConsumed, ha]
  · simp [WritableNativeArray.pushString, throwIfObjectAlreadyConsumed, ha]
  · simp [WritableNativeArray.pushArray, throwIfObjectAlreadyConsumed, ha]
  · simp [WritableNativeArray.pushMap, throwIfObjectAlreadyConsumed, ha]
  · simp [map.writable.putNull, throwIfObjectAlreadyConsumed, hm]
  · simp [map.writable.putBoolean, throwIfObjectAlreadyConsumed, hm]
  · simp [map.writable.putDouble, throwIfObjectAlreadyConsumed, hm]
  · simp [map.writable.putString, throwIfObjectAlreadyConsumed, hm]
  · simp [map.writable.putArray, throwIfObjectAlreadyConsumed, hm]
  · simp [map.writable.putMap, throwIfObjectAlreadyConsumed, hm]
  · cases hsrc : src.isConsumed <;>
      simp [map.writable.mergeMap, throwIfObjectAlreadyConsumed, hsrc, hm,
        isObjectAlreadyConsumedErr]
  · cases hsrc : src.isConsumed <;>
      simp [map.writable.mergeMap, throwIfObjectAlreadyConsumed, hsrc, hm]
  · simp [map.writable.mergeMap, throwIfObjectAlreadyConsumed, hm]
  · simp [map.toString, throwIfObjectAlreadyConsumed, hm]

/-- Witness for C1 (amended) on the realistic consumed state (the value was
moved away, leaving null): mutators and toString fail with
ObjectAlreadyConsumed and the state is unchanged; hasKey does not report
ObjectAlreadyConsumed. -/
theorem C1_consumed_container_witness :
    WritableNativeArray.pushNull ⟨true, Dynamic.null⟩ =
      (.error (.objectAlreadyConsumed ("Array already consumed")), ⟨true, Dynamic.null⟩) ∧
    map.toString ⟨true, Dynamic.null⟩ =
      .error (.objectAlreadyConsumed ("Map already consumed")) ∧
    isObjectAlreadyConsumedErr
      (map.readable.hasKey ⟨true, Dynamic.null⟩ ("a")) = false := by
  have h := C1_consumed_container ⟨true, Dynamic.null⟩ ⟨true, Dynamic.null⟩
    true 0 ("s") ("a") 0 ⟨false, Dynamic.arr []⟩ ⟨false, Dynamic.obj []⟩
    ⟨false, Dynamic.obj []⟩ ⟨false, Dynamic.obj []⟩ rfl rfl
  exact ⟨h.1, h.2.2.2.2.2.2.2.2.2.2.2.2.2.2.1, h.2.2.2.2.2.2.2.2.2.2.2.2.2.2.2.1⟩

/-- Counterexample to C1 as stated: hasKey on a consumed map (whose value
was moved away, leaving null) does not fail with ObjectAlreadyConsumed —
it escapes with the raw folly TypeError of looking into a null value. -/
theorem C1_counterexample :
    isObjectAlreadyConsumedErr
      (map.readable.hasKey ⟨true, Dynamic.null⟩ ("a")) = false ∧
    map.readable.hasKey ⟨true, Dynamic.null⟩ ("a") =
      .error (.follyTypeError ("find: not an object")) := by
  constructor <;> rfl

/-- C3 (amended): bridge::callFunction and bridge::invokeCallback neither
check nor set the args container's consumed flag: the underlying value is
moved into the executor-bound call vector, leaving the container
unconsumed-flagged with a null value; afterwards operations on the shell
never fail with ObjectAlreadyConsumed (pushNull, for instance, fails with
a translated type error instead), and the shell is even accepted again for
transport. -/
theorem C3_transport_does_not_consume (moduleId methodId callbackId m2 f2 : Int)
    (a : NativeArray) (h : a.isConsumed = false) :
    bridge.callFunction moduleId methodId a =
      ([Dynamic.dbl (moduleId : ℚ), Dynamic.dbl (methodId : ℚ), a.array],
        ⟨false, Dynamic.null⟩) ∧
    bridge.invokeCallback callbackId a =
      ([Dynamic.dbl (callbackId : ℚ), a.array], ⟨false, Dynamic.null⟩) ∧
    isObjectAlreadyConsumedErr
      (WritableNativeArray.pushNull (bridge.callFunction moduleId methodId a).2).1 = false ∧
    bridge.callFunction m2 f2 (bridge.callFunction moduleId methodId a).2 =
      ([Dynamic.dbl (m2 : ℚ), Dynamic.dbl (f2 : ℚ), Dynamic.null],
        ⟨false, Dynamic.null⟩) := by
  refine ⟨?_, ?_, ?_, ?_⟩ <;>
    simp [bridge.callFunction, bridge.invokeCallback, WritableNativeArray.pushNull,
      throwIfObjectAlreadyConsumed, folly.pushBack, translateTypeError,
      isObjectAlreadyConsumedErr, h]

/-- Witness for C3 (amended): transporting a one-element array hands its
value to the executor, leaves the shell unconsumed and null, and pushNull
on the shell does not report ObjectAlreadyConsumed. -/
theorem C3_transport_does_not_consume_witness :
    bridge.callFunction 1 2 ⟨false, Dynamic.arr [Dynamic.int 5]⟩ =
      ([Dynamic.dbl ((1 : Int) : ℚ), Dynamic.dbl ((2 : Int) : ℚ),
        Dynamic.arr [Dynamic.int 5]], ⟨false, Dynamic.null⟩) ∧
    isObjectAlreadyConsumedErr
      (WritableNativeArray.pushNull
        (bridge.callFunction 1 2 ⟨false, Dynamic.arr [Dynamic.int 5]⟩).2).1 = false := by
  have h := C3_transport_does_not_consume 1 2 0 3 4 ⟨false, Dynamic.arr [Dynamic.int 5]⟩ rfl
  exact ⟨h.1, h.2.2.1⟩

/-- Counterexample to C3 as stated: a container whose consumed flag is
already true is accepted by callFunction without any ObjectAlreadyConsumed
failure (the claim requires the operation to demand an unconsumed
container), and after transporting an unconsumed container its flag is
still false, so the shell does not reject further use as consumed. -/
theorem C3_counterexample :
    bridge.callFunction 1 2 ⟨true, Dynamic.arr []⟩ =
      ([Dynamic.dbl ((1 : Int) : ℚ), Dynamic.dbl ((2 : Int) : ℚ), Dynamic.arr []],
        ⟨true, Dynamic.null⟩) ∧
    (bridge.callFunction 1 2 ⟨false, Dynamic.arr []⟩).2.isConsumed = false := by
  constructor <;> rfl

end ReactBridge
